import Mathlib

/-!
Verification development for the retention-bot conversation core.

The definitions below are a shallow embedding of the Python sources:
fsm.py (class IntentionFlow and its configured transitions machine),
user_context.py (class UserContext: state reconciliation and persistence),
main_intent.py (the tool layer: coercion, allowed-trigger resolution,
tool_update_fsm, tool_get_user_context, tool_get_fsm_reply) and
gpt.py (GPTClient.generate_response, the tool-calling loop).

Machine-library semantics embedded here, for the machine as configured in
fsm.py: firing a trigger whose source set does not contain the current
state raises MachineError; firing a trigger whose guard condition fails
returns False with no state change and no exception; on_enter callbacks of
the destination state run on entry (mark_interested for the states
interested and action_sqft); the after callback of retry_confused runs
increment_confused, which in turn fires pause_flow once confused_count
reaches 3. The machine is built with the default auto_transitions=True, so
get_triggers also reports one auto-generated trigger per state, named
by prefixing to_ to the state name.
-/

/-- The nine states declared in IntentionFlow.states (fsm.py). -/
inductive FState
  | start
  | interested
  | action_sqft
  | confused
  | not_interested
  | follow_up
  | pause
  | stop
  | done
deriving DecidableEq, Repr, Fintype

/-- The ten explicitly declared triggers (fsm.py, add_transition calls). -/
inductive Trigger
  | receive_positive_response
  | go_to_sqft
  | receive_followup
  | complete_flow
  | receive_negative_response
  | user_stopped
  | retry_confused
  | pause_flow
  | resume_flow
  | polite_ack
deriving DecidableEq, Repr, Fintype

/-- The mutable per-flow data of IntentionFlow: current state plus the
confused_count and was_ever_interested attributes set in __init__. -/
structure IntentionFlow where
  state : FState
  confused_count : Nat
  was_ever_interested : Bool
deriving DecidableEq, Repr

/-- A fresh IntentionFlow as built by __init__ (fsm.py lines 24-29). -/
def initialFlow : IntentionFlow :=
  { state := .start, confused_count := 0, was_ever_interested := false }

/-- Source-state sets of each explicit transition as registered by the
add_transition calls in fsm.py; none stands for the wildcard source. -/
def triggerSources : Trigger → Option (List FState)
  | .receive_positive_response => some [.start, .confused, .pause]
  | .go_to_sqft => some [.interested, .start, .confused]
  | .receive_followup => some [.action_sqft, .interested]
  | .complete_flow => some [.follow_up]
  | .receive_negative_response => none
  | .user_stopped => none
  | .retry_confused => none
  | .pause_flow => some [.confused]
  | .resume_flow => some [.pause]
  | .polite_ack => some [.follow_up]

/-- Whether a trigger has a registered transition out of a given state. -/
def triggerValidFrom (s : FState) (t : Trigger) : Bool :=
  match triggerSources t with
  | none => true
  | some l => l.contains s

/-- Outcome of firing one trigger on the transitions machine. -/
inductive FireOutcome
  | fired (f : IntentionFlow)
  | condFailed
  | invalid
deriving DecidableEq, Repr

/-- Firing one trigger, embedding the machine configured in fsm.py.
The states interested and action_sqft carry on_enter mark_interested, so
entering them sets was_ever_interested (fsm.py lines 14-15, 45-46).
retry_confused carries after increment_confused, which increments
confused_count and, once max_confused holds (count at least 3), itself
fires pause_flow from confused, landing in pause (fsm.py lines 48-55).
pause_flow is guarded by max_confused: from confused with a lower count
it fires without a transition (condFailed, the library returns False). -/
def fire (f : IntentionFlow) : Trigger → FireOutcome
  | .receive_positive_response =>
      if triggerValidFrom f.state .receive_positive_response then
        .fired { f with state := .interested, was_ever_interested := true }
      else .invalid
  | .go_to_sqft =>
      if triggerValidFrom f.state .go_to_sqft then
        .fired { f with state := .action_sqft, was_ever_interested := true }
      else .invalid
  | .receive_followup =>
      if triggerValidFrom f.state .receive_followup then
        .fired { f with state := .follow_up }
      else .invalid
  | .complete_flow =>
      if triggerValidFrom f.state .complete_flow then
        .fired { f with state := .done }
      else .invalid
  | .receive_negative_response =>
      if triggerValidFrom f.state .receive_negative_response then
        .fired { f with state := .not_interested }
      else .invalid
  | .user_stopped =>
      if triggerValidFrom f.state .user_stopped then
        .fired { f with state := .stop }
      else .invalid
  | .retry_confused =>
      if triggerValidFrom f.state .retry_confused then
        if 3 ≤ f.confused_count + 1 then
          .fired { f with state := .pause, confused_count := f.confused_count + 1 }
        else
          .fired { f with state := .confused, confused_count := f.confused_count + 1 }
      else .invalid
  | .pause_flow =>
      if triggerValidFrom f.state .pause_flow then
        if 3 ≤ f.confused_count then .fired { f with state := .pause }
        else .condFailed
      else .invalid
  | .resume_flow =>
      if triggerValidFrom f.state .resume_flow then
        .fired { f with state := .start }
      else .invalid
  | .polite_ack =>
      if triggerValidFrom f.state .polite_ack then
        .fired { f with state := .done }
      else .invalid

/-- Fire one trigger on a flow, keeping the flow unchanged when the
machine rejects the trigger or the guard fails. -/
def applyStep (f : IntentionFlow) (t : Trigger) : IntentionFlow :=
  match fire f t with
  | .fired g => g
  | _ => f

/-- Fire a sequence of triggers in order. -/
def applySeq (f : IntentionFlow) (l : List Trigger) : IntentionFlow :=
  l.foldl applyStep f

/-- Python name of each state (the name fields in IntentionFlow.states). -/
def stateName : FState → String
  | .start => "start"
  | .interested => "interested"
  | .action_sqft => "action_sqft"
  | .confused => "confused"
  | .not_interested => "not_interested"
  | .follow_up => "follow_up"
  | .pause => "pause"
  | .stop => "stop"
  | .done => "done"

/-- Python name of each explicit trigger. -/
def triggerName : Trigger → String
  | .receive_positive_response => "receive_positive_response"
  | .go_to_sqft => "go_to_sqft"
  | .receive_followup => "receive_followup"
  | .complete_flow => "complete_flow"
  | .receive_negative_response => "receive_negative_response"
  | .user_stopped => "user_stopped"
  | .retry_confused => "retry_confused"
  | .pause_flow => "pause_flow"
  | .resume_flow => "resume_flow"
  | .polite_ack => "polite_ack"

/-- Name of the auto-generated convenience trigger for a state, as created
by the machine default auto_transitions=True. -/
def autoTriggerName (s : FState) : String :=
  "to_" ++ stateName s

/-- Lexicographic code-point order on character lists, the order the
Python sorted() builtin uses on these ASCII names. -/
def charsLe : List Char → List Char → Bool
  | [], _ => true
  | _ :: _, [] => false
  | a :: as, b :: bs =>
      if a.val.toNat < b.val.toNat then true
      else if b.val.toNat < a.val.toNat then false
      else charsLe as bs

/-- Lexicographic code-point order on strings. -/
def strLe (a b : String) : Bool :=
  charsLe a.data b.data

/-- Insert a string into a sorted list, keeping it sorted. -/
def insertSorted (x : String) : List String → List String
  | [] => [x]
  | y :: ys => if strLe x y then x :: y :: ys else y :: insertSorted x ys

/-- Insertion sort on strings, mirroring the Python sorted() builtin
(lexicographic by code point, which agrees for these ASCII names). -/
def sortStrings (l : List String) : List String :=
  l.foldr insertSorted []

/-- The EXPLICIT_TRIGGERS set of _get_allowed_triggers
(main_intent.py lines 218-229), as a duplicate-free list. -/
def EXPLICIT_TRIGGERS : List Trigger :=
  [.receive_positive_response, .go_to_sqft, .receive_followup, .complete_flow,
   .receive_negative_response, .user_stopped, .retry_confused, .pause_flow,
   .resume_flow, .polite_ack]

/-- The explicit triggers with a registered transition out of a state:
the value _get_allowed_triggers computes by filtering EXPLICIT_TRIGGERS
through machine.get_triggers(state). -/
def allowed_of (s : FState) : List Trigger :=
  EXPLICIT_TRIGGERS.filter (fun t => triggerValidFrom s t)

/-- All states in declaration order (IntentionFlow.states). -/
def allStates : List FState :=
  [.start, .interested, .action_sqft, .confused, .not_interested,
   .follow_up, .pause, .stop, .done]

/-- The trigger-name list machine.get_triggers(state) reports for a state:
the auto-generated to_ triggers (one per state, wildcard source, added at
machine construction) followed by the explicit triggers registered from
that state. -/
def machineGetTriggerNames (s : FState) : List String :=
  (allStates.map autoTriggerName) ++
    ((EXPLICIT_TRIGGERS.filter (fun t => triggerValidFrom s t)).map triggerName)

/-- The persisted FSMState row for a phone number (models.py: columns
statename and was_interested). -/
structure DBRecord where
  statename : FState
  was_interested : Bool
deriving DecidableEq, Repr

/-- The state a UserContext can reach and mutate: its in-memory
IntentionFlow, the persisted fsm_state row for its phone number (none
when the row does not exist yet), and the outbound message log rows
written through log_message_to_db. -/
structure Sys where
  flow : IntentionFlow
  db : Option DBRecord
  log : List String
deriving DecidableEq, Repr

/-- UserContext.get_current_state (user_context.py lines 102-143).
Reads the in-memory state and flag first; inserts the row when missing;
otherwise propagates a persisted was_interested into memory, overwrites
the persisted statename with the in-memory state when they diverge, and
raises the persisted flag when memory has it; returns the row statename,
which after the write-back is always the in-memory state. -/
def get_current_state (sys : Sys) : FState × Sys :=
  let m := sys.flow.state
  let ci := sys.flow.was_ever_interested
  match sys.db with
  | none => (m, { sys with db := some { statename := m, was_interested := ci } })
  | some r =>
      let flow1 :=
        if r.was_interested then
          { sys.flow with was_ever_interested := true }
        else sys.flow
      (m, { sys with
              flow := flow1,
              db := some { statename := m,
                           was_interested := r.was_interested || ci } })

/-- UserContext.set_current_state (user_context.py lines 77-100): write
the given state name to the row, never lowering was_interested. -/
def set_current_state (sys : Sys) (s : FState) : Sys :=
  let wi := sys.flow.was_ever_interested
  match sys.db with
  | some r => { sys with db := some { statename := s, was_interested := r.was_interested || wi } }
  | none => { sys with db := some { statename := s, was_interested := wi } }

/-- Outcome of UserContext.trigger_event: either normal return (the flow
possibly advanced and the resulting state persisted) or a MachineError
raised out of the trigger call. -/
inductive TriggerOutcome
  | ok (sys : Sys)
  | machineError (sys : Sys)
deriving DecidableEq, Repr

/-- UserContext.trigger_event (user_context.py lines 31-51): fire the
trigger on the in-memory flow, then persist the resulting state. A guard
that fails returns False from the library without an exception, so the
unchanged state is still persisted. A trigger invalid from the current
state raises MachineError before any mutation. -/
def trigger_event (sys : Sys) (t : Trigger) : TriggerOutcome :=
  match fire sys.flow t with
  | .fired g => .ok (set_current_state { sys with flow := g } g.state)
  | .condFailed => .ok (set_current_state sys sys.flow.state)
  | .invalid => .machineError sys

/-- The coercion helper _coerce_event (main_intent.py lines 31-59),
restricted to the ten explicit trigger names, mirroring its sequential
rules: follow_up remaps short acks to polite_ack; action_sqft and
interested remap go_to_sqft to receive_followup; pause tags everything
except user_stopped with a noop reason while leaving the trigger
unchanged; otherwise the trigger passes through with no reason. -/
def coerce_event (state : FState) (e : Trigger) : Trigger × Option String :=
  if state = .follow_up ∧
      (e = .retry_confused ∨ e = .receive_positive_response ∨ e = .resume_flow) then
    (.polite_ack, some "coerced_from_follow_up_ack")
  else if state = .action_sqft ∧ e = .go_to_sqft then
    (.receive_followup, some "coerced_from_gotosqft")
  else if state = .interested ∧ e = .go_to_sqft then
    (.receive_followup, some "coerced_from_gotosqft_and_interested")
  else if state = .pause ∧ ¬ e = .user_stopped then
    (e, some "noop_if_invalid_in_pause")
  else (e, none)

/-- _get_allowed_triggers (main_intent.py lines 208-345). The returned
set is EXPLICIT_TRIGGERS filtered through machine.get_triggers(state).
Before computing it, the function reads user.get_current_state() for its
introspection block (line 260), which is why the call can update the
persisted row and the in-memory interest flag as a side effect. -/
def get_allowed_triggers (s : FState) (sys : Sys) : List Trigger × Sys :=
  let sys1 := (get_current_state sys).2
  (allowed_of s, sys1)

/-- The union of the fields of the result dictionaries tool_update_fsm
can return (main_intent.py lines 92-102, 138-146, 156-165). The success
dictionary carries no coercion key, modeled here as coercion none; its
event, from_state and to_state keys are modeled by event_fired,
state_before and state_after. -/
structure UpdateResult where
  applied : Bool
  reason : Option String
  coercion : Option String
  event_requested : Trigger
  event_fired : Option Trigger
  state_before : FState
  state_after : FState
  allowed_triggers : List String
  fsm : IntentionFlow
deriving DecidableEq, Repr

/-- tool_update_fsm (main_intent.py lines 62-191): capture the state,
coerce the event, validate the coerced event against the allowed set,
reject without firing when it is not allowed, otherwise fire through
trigger_event and report whether the state changed. -/
def tool_update_fsm (sys : Sys) (event_name : Trigger) : UpdateResult × Sys :=
  let p0 := get_current_state sys
  let state_before := p0.1
  let sys1 := p0.2
  let snap_before := sys1.flow
  let ec := coerce_event state_before event_name
  let event_to_fire := ec.1
  let coercion_reason := ec.2
  let pa := get_allowed_triggers state_before sys1
  let allowed := pa.1
  let sys2 := pa.2
  if allowed ≠ [] ∧ event_to_fire ∉ allowed then
    ({ applied := false,
       reason := some "invalid_trigger_for_state",
       coercion := coercion_reason,
       event_requested := event_name,
       event_fired := none,
       state_before := state_before,
       state_after := state_before,
       allowed_triggers := sortStrings (allowed.map triggerName),
       fsm := snap_before }, sys2)
  else
    match trigger_event sys2 event_to_fire with
    | .ok sys3 =>
        let p1 := get_current_state sys3
        let state_after := p1.1
        let sys4 := p1.2
        let snap_after := sys4.flow
        let changed := decide (state_after ≠ state_before)
        let pn := get_allowed_triggers state_after sys4
        let new_allowed := pn.1
        let sys5 := pn.2
        ({ applied := changed,
           reason := if changed then none else some "no_state_change",
           coercion := none,
           event_requested := event_name,
           event_fired := some event_to_fire,
           state_before := state_before,
           state_after := state_after,
           allowed_triggers := sortStrings (new_allowed.map triggerName),
           fsm := snap_after }, sys5)
    | .machineError sys3 =>
        ({ applied := false,
           reason := some "machine_error",
           coercion := none,
           event_requested := event_name,
           event_fired := some event_to_fire,
           state_before := state_before,
           state_after := state_before,
           allowed_triggers := sortStrings (allowed.map triggerName),
           fsm := snap_before }, sys3)

/-- The fields of the tool_get_user_context payload that the state
machine determines (main_intent.py lines 17-27). The identity fields
phone_number, user_data, twilio_data and the fixed nlu_hint string are
data passed through unchanged and are not modeled. -/
structure UserContextPayload where
  current_state : FState
  allowed_triggers : List String
  fsm : IntentionFlow
deriving DecidableEq, Repr

/-- tool_get_user_context (main_intent.py lines 17-27): snapshot first,
then get_current_state twice (once for the current_state field, once as
the argument of machine.get_triggers), and the sorted raw trigger list
of the machine, auto-generated to_ triggers included. -/
def tool_get_user_context (sys : Sys) : UserContextPayload × Sys :=
  let snap := sys.flow
  let p1 := get_current_state sys
  let p2 := get_current_state p1.2
  ({ current_state := p1.1,
     allowed_triggers := sortStrings (machineGetTriggerNames p2.1),
     fsm := snap }, p2.2)

/-- UserContext.reply_for_state (user_context.py lines 208-229): the
literal template for each state. The function also has a fallback line
for snapshots whose flow_state is none of the nine names; that line is
unreachable here because the embedded snapshot always carries one of the
nine states. -/
def reply_for_state (snap : IntentionFlow) : String :=
  match snap.state with
  | .start => "Hey! Quick check-in—are you still seeing any pest activity?"
  | .interested => "Great—roughly how many square feet is the area you want serviced?"
  | .action_sqft => "Please let me know the square footage of your property."
  | .follow_up => "Thanks I\x27ve noted those details. We will reach out with a booking"
  | .done => "All set—thanks! We will reach out if anything is needed"
  | .not_interested => "Thank you, no problem. Bye"
  | .pause => "Let\x27s pause for now. Ping me \x27resume\x27 when you\x27re ready."
  | .stop => "You\x27re opted out"
  | .confused => "Sorry, could you clarify?"

/-- tool_get_fsm_reply (main_intent.py lines 349-352): template the
reply from the current snapshot; a pure read. -/
def tool_get_fsm_reply (sys : Sys) : String × IntentionFlow :=
  let snap := sys.flow
  (reply_for_state snap, snap)

/-- One tool call requested by the generation service within a turn. -/
inductive ToolCall
  | get_user_context
  | update_fsm (event_name : Trigger)
  | get_fsm_reply
  | unknown (name : String)
deriving DecidableEq, Repr

/-- One generation-service response: the tool calls it requests (empty
when it answered with plain text) and its free-form text content. -/
structure SvcResponse where
  tool_calls : List ToolCall
  content : String
deriving DecidableEq, Repr

/-- GPTClient.insert_with_db_instance (gpt.py lines 210-217): record the
outgoing reply in the per-phone context and the message table. -/
def insert_with_db_instance (sys : Sys) (reply : String) : Sys :=
  { sys with log := sys.log ++ [reply] }

/-- The per-round tool execution of GPTClient.generate_response
(gpt.py lines 142-174): run the requested calls in order; update_fsm
results that were not applied set the force flag; get_fsm_reply logs its
templated reply and short-circuits the remaining calls of the round;
unknown names produce an error payload for the model and continue. -/
def exec_tool_calls : List ToolCall → Sys → Bool → Sys × Bool × Option String
  | [], sys, force => (sys, force, none)
  | c :: rest, sys, force =>
      match c with
      | .get_user_context =>
          let p := tool_get_user_context sys
          exec_tool_calls rest p.2 force
      | .update_fsm e =>
          let p := tool_update_fsm sys e
          exec_tool_calls rest p.2 (force || !p.1.applied)
      | .get_fsm_reply =>
          let p := tool_get_fsm_reply sys
          (insert_with_db_instance sys p.1, force, some p.1)
      | .unknown _ =>
          exec_tool_calls rest sys force

/-- The loop of GPTClient.generate_response (gpt.py lines 95-208) over a
given stream of generation-service responses, one response consumed per
service call. A response carrying tool calls is executed and the loop
continues unless get_fsm_reply short-circuited it; a response with no
tool calls retries once more when the force flag is set from a rejected
update, and otherwise falls back to the templated reply of
tool_get_fsm_reply. The result is none only when the response stream
runs out, which models the blocking service call never returning. -/
def generate_response : List SvcResponse → Sys → Bool → Option (String × Sys)
  | [], _, _ => none
  | r :: rest, sys, force =>
      if r.tool_calls ≠ [] then
        match exec_tool_calls r.tool_calls sys false with
        | (sys1, _, some reply) => some (reply, sys1)
        | (sys1, force1, none) => generate_response rest sys1 force1
      else if force then
        generate_response rest sys false
      else
        let p := tool_get_fsm_reply sys
        some (p.1, insert_with_db_instance sys p.1)

/-- The was_interested flag stored in the persisted row, false when the
row does not exist. -/
def dbWi (sys : Sys) : Bool :=
  match sys.db with
  | some r => r.was_interested
  | none => false

lemma gcs_fst (sys : Sys) : (get_current_state sys).1 = sys.flow.state := by
  rcases sys with ⟨⟨s, c, w⟩, db, log⟩
  rcases db with _ | ⟨rs, rw⟩
  · rfl
  · rfl

lemma gcs_state (sys : Sys) :
    (get_current_state sys).2.flow.state = sys.flow.state := by
  rcases sys with ⟨⟨s, c, w⟩, db, log⟩
  rcases db with _ | ⟨rs, rw⟩
  · rfl
  · cases rw <;> rfl

lemma gcs_count (sys : Sys) :
    (get_current_state sys).2.flow.confused_count = sys.flow.confused_count := by
  rcases sys with ⟨⟨s, c, w⟩, db, log⟩
  rcases db with _ | ⟨rs, rw⟩
  · rfl
  · cases rw <;> rfl

lemma gcs_wei (sys : Sys) :
    (get_current_state sys).2.flow.was_ever_interested =
      (sys.flow.was_ever_interested || dbWi sys) := by
  rcases sys with ⟨⟨s, c, w⟩, db, log⟩
  rcases db with _ | ⟨rs, rw⟩
  · simp [get_current_state, dbWi]
  · cases rw <;> cases w <;> simp [get_current_state, dbWi]

lemma gcs_db (sys : Sys) :
    (get_current_state sys).2.db =
      some { statename := sys.flow.state,
             was_interested := dbWi sys || sys.flow.was_ever_interested } := by
  rcases sys with ⟨⟨s, c, w⟩, db, log⟩
  rcases db with _ | ⟨rs, rw⟩
  · simp [get_current_state, dbWi]
  · cases rw <;> cases w <;> simp [get_current_state, dbWi]

lemma gcs_log (sys : Sys) : (get_current_state sys).2.log = sys.log := by
  rcases sys with ⟨⟨s, c, w⟩, db, log⟩
  rcases db with _ | ⟨rs, rw⟩
  · rfl
  · cases rw <;> rfl

lemma allowed_of_ne_nil (s : FState) : allowed_of s ≠ [] := by
  cases s <;> decide

lemma tool_update_reject (sys : Sys) (t : Trigger)
    (h : (coerce_event sys.flow.state t).1 ∉ allowed_of sys.flow.state) :
    (tool_update_fsm sys t).1.applied = false ∧
    (tool_update_fsm sys t).1.reason = some "invalid_trigger_for_state" ∧
    (tool_update_fsm sys t).1.coercion = (coerce_event sys.flow.state t).2 ∧
    (tool_update_fsm sys t).1.state_before = sys.flow.state ∧
    (tool_update_fsm sys t).1.state_after = sys.flow.state ∧
    (tool_update_fsm sys t).2.flow.state = sys.flow.state ∧
    (tool_update_fsm sys t).2.flow.confused_count = sys.flow.confused_count := by
  simp only [tool_update_fsm, get_allowed_triggers, gcs_fst]
  rw [if_pos ⟨allowed_of_ne_nil _, h⟩]
  refine ⟨rfl, rfl, rfl, rfl, rfl, ?_, ?_⟩
  · rw [gcs_state, gcs_state]
  · rw [gcs_count, gcs_count]

lemma fire_wei_mono (f g : IntentionFlow) (t : Trigger)
    (hf : fire f t = .fired g) (hw : f.was_ever_interested = true) :
    g.was_ever_interested = true := by
  cases t <;> simp only [fire] at hf <;>
    (split at hf <;> try split at hf) <;>
    first
      | exact FireOutcome.noConfusion hf
      | (cases hf; rfl)
      | (cases hf; exact hw)

lemma applyStep_wei_mono (f : IntentionFlow) (t : Trigger)
    (hw : f.was_ever_interested = true) :
    (applyStep f t).was_ever_interested = true := by
  unfold applyStep
  cases hf : fire f t with
  | fired g => exact fire_wei_mono f g t hf hw
  | condFailed => exact hw
  | invalid => exact hw

lemma applySeq_wei_mono (l : List Trigger) (f : IntentionFlow)
    (hw : f.was_ever_interested = true) :
    (applySeq f l).was_ever_interested = true := by
  induction l generalizing f with
  | nil => exact hw
  | cons t rest ih => exact ih (applyStep f t) (applyStep_wei_mono f t hw)

lemma fire_interest_sets_flag (f g : IntentionFlow) (t : Trigger)
    (ht : t = .receive_positive_response ∨ t = .go_to_sqft)
    (hf : fire f t = .fired g) :
    g.was_ever_interested = true := by
  rcases ht with ht | ht <;> subst ht <;> simp only [fire] at hf <;>
    split at hf <;>
    first
      | exact FireOutcome.noConfusion hf
      | (cases hf; rfl)

lemma exec_tool_calls_reply_templated (calls : List ToolCall) (sys : Sys)
    (force : Bool) (sys1 : Sys) (f1 : Bool) (reply : String)
    (h : exec_tool_calls calls sys force = (sys1, f1, some reply)) :
    reply = reply_for_state sys1.flow := by
  induction calls generalizing sys force with
  | nil => simp [exec_tool_calls] at h
  | cons c rest ih =>
      cases c with
      | get_user_context => exact ih _ _ h
      | update_fsm e => exact ih _ _ h
      | get_fsm_reply =>
          simp only [exec_tool_calls, tool_get_fsm_reply,
            insert_with_db_instance, Prod.mk.injEq, Option.some.injEq] at h
          obtain ⟨h1, h2, h3⟩ := h
          subst h1
          subst h3
          rfl
      | unknown n => exact ih _ _ h

/-- C1: every reply generate_response ever returns is the template of
the flow snapshot held at the moment of return, whether it came from the
get_fsm_reply short-circuit or from the zero-tool-calls fallback; the
free-form text content of the generation service never becomes the
returned reply. -/
theorem generate_response_reply_templated (responses : List SvcResponse)
    (sys : Sys) (force : Bool) (reply : String) (sys1 : Sys)
    (h : generate_response responses sys force = some (reply, sys1)) :
    reply = reply_for_state sys1.flow := by
  induction responses generalizing sys force with
  | nil => simp [generate_response] at h
  | cons r rest ih =>
      rw [generate_response] at h
      by_cases hc : r.tool_calls ≠ []
      · rw [if_pos hc] at h
        rcases he : exec_tool_calls r.tool_calls sys false with ⟨sysa, fa, ra⟩
        rw [he] at h
        cases ra with
        | some rr =>
            simp only [Option.some.injEq, Prod.mk.injEq] at h
            obtain ⟨h1, h2⟩ := h
            subst h1
            subst h2
            exact exec_tool_calls_reply_templated _ _ _ _ _ _ he
        | none => exact ih _ _ h
      · rw [if_neg hc] at h
        by_cases hforce : force
        · rw [if_pos hforce] at h
          exact ih _ _ h
        · rw [if_neg hforce] at h
          simp only [tool_get_fsm_reply, insert_with_db_instance,
            Option.some.injEq, Prod.mk.injEq] at h
          obtain ⟨h1, h2⟩ := h
          subst h1
          subst h2
          rfl

theorem generate_response_reply_templated_witness :
    generate_response [{ tool_calls := [ToolCall.get_fsm_reply], content := "free text" }]
        { flow := initialFlow, db := none, log := [] } false =
      some ("Hey! Quick check-in—are you still seeing any pest activity?",
        { flow := initialFlow, db := none,
          log := ["Hey! Quick check-in—are you still seeing any pest activity?"] }) ∧
    "Hey! Quick check-in—are you still seeing any pest activity?" =
      reply_for_state initialFlow :=
  ⟨by decide,
   generate_response_reply_templated
     [{ tool_calls := [ToolCall.get_fsm_reply], content := "free text" }]
     { flow := initialFlow, db := none, log := [] } false
     "Hey! Quick check-in—are you still seeing any pest activity?"
     { flow := initialFlow, db := none,
       log := ["Hey! Quick check-in—are you still seeing any pest activity?"] }
     (by decide)⟩

/-- C5: once receive_positive_response or go_to_sqft has fired (the flow
entered interested or action_sqft via mark_interested), the
was_ever_interested flag is true in every subsequent snapshot, whatever
sequence of triggers is attempted afterwards. -/
theorem was_ever_interested_monotone (f g : IntentionFlow) (t : Trigger)
    (l : List Trigger)
    (ht : t = .receive_positive_response ∨ t = .go_to_sqft)
    (hf : fire f t = .fired g) :
    (applySeq g l).was_ever_interested = true :=
  applySeq_wei_mono l g (fire_interest_sets_flag f g t ht hf)

theorem was_ever_interested_monotone_witness :
    fire initialFlow .receive_positive_response =
      .fired { state := .interested, confused_count := 0, was_ever_interested := true } ∧
    (applySeq { state := .interested, confused_count := 0, was_ever_interested := true }
        [.receive_negative_response, .user_stopped]).was_ever_interested = true :=
  ⟨by decide,
   was_ever_interested_monotone initialFlow
     { state := .interested, confused_count := 0, was_ever_interested := true }
     .receive_positive_response
     [.receive_negative_response, .user_stopped]
     (Or.inl rfl) (by decide)⟩

/-- C10: confused_count is never decremented or reset by any transition:
a fired transition increments it exactly when the trigger is
retry_confused and leaves it unchanged otherwise (in particular
resume_flow preserves it), and once the count is at least 3 a single
retry_confused lands in pause through the auto-fired pause_flow. -/
theorem confused_count_monotone (f g : IntentionFlow) (t : Trigger)
    (hf : fire f t = .fired g) :
    (g.confused_count =
      if t = .retry_confused then f.confused_count + 1 else f.confused_count) ∧
    (t = .resume_flow → g.confused_count = f.confused_count) ∧
    (t = .retry_confused → 3 ≤ f.confused_count → g.state = .pause) := by
  cases t <;> simp only [fire] at hf <;>
    (split at hf <;> try split at hf) <;>
    first
      | exact FireOutcome.noConfusion hf
      | (cases hf; refine ⟨by simp, by simp, ?_⟩
         intro h1 h2
         simp_all <;> omega)

theorem confused_count_monotone_witness :
    fire { state := .pause, confused_count := 3, was_ever_interested := false }
        .retry_confused =
      .fired { state := .pause, confused_count := 4, was_ever_interested := false } ∧
    (({ state := .pause, confused_count := 4, was_ever_interested := false }
        : IntentionFlow).confused_count =
      if Trigger.retry_confused = Trigger.retry_confused then
        ({ state := .pause, confused_count := 3, was_ever_interested := false }
          : IntentionFlow).confused_count + 1
      else
        ({ state := .pause, confused_count := 3, was_ever_interested := false }
          : IntentionFlow).confused_count) ∧
    (Trigger.retry_confused = Trigger.retry_confused →
      3 ≤ ({ state := .pause, confused_count := 3, was_ever_interested := false }
        : IntentionFlow).confused_count →
      ({ state := .pause, confused_count := 4, was_ever_interested := false }
        : IntentionFlow).state = .pause) :=
  ⟨by decide,
   (confused_count_monotone
      { state := .pause, confused_count := 3, was_ever_interested := false }
      { state := .pause, confused_count := 4, was_ever_interested := false }
      .retry_confused (by decide)).1,
   (confused_count_monotone
      { state := .pause, confused_count := 3, was_ever_interested := false }
      { state := .pause, confused_count := 4, was_ever_interested := false }
      .retry_confused (by decide)).2.2⟩

/-- C6 counterexample: a flow that has already fired retry_confused once
(reachable from a fresh flow) ends three further consecutive
retry_confused firings in state pause but with confused_count 4, not 3. -/
theorem retry_confused_thrice_count_cex :
    applyStep initialFlow .retry_confused =
      { state := .confused, confused_count := 1, was_ever_interested := false } ∧
    applySeq { state := .confused, confused_count := 1, was_ever_interested := false }
        [.retry_confused, .retry_confused, .retry_confused] =
      { state := .pause, confused_count := 4, was_ever_interested := false } ∧
    (4 : Nat) ≠ 3 := by
  decide

/-- C6 as amended: three consecutive retry_confused firings from any
flow configuration always end in state pause with confused_count equal
to the prior count plus 3 (so exactly 3 precisely when the flow had not
fired retry_confused before), the flag untouched. -/
theorem retry_confused_thrice_pause (f : IntentionFlow) :
    applySeq f [.retry_confused, .retry_confused, .retry_confused] =
      { state := .pause, confused_count := f.confused_count + 3,
        was_ever_interested := f.was_ever_interested } := by
  rcases f with ⟨s, c, w⟩
  simp only [applySeq, List.foldl, applyStep, fire, triggerValidFrom,
    triggerSources]
  split_ifs <;> simp_all

/-- C2 counterexample: go_to_sqft is not in the allowed-trigger set of
action_sqft, yet tool_update_fsm applies it, because validation runs on
the coerced event receive_followup; the state moves to follow_up instead
of staying put with an invalid_trigger_for_state rejection. -/
theorem update_fsm_applies_coerced_event_cex :
    Trigger.go_to_sqft ∉ allowed_of .action_sqft ∧
    (tool_update_fsm
        { flow := { state := .action_sqft, confused_count := 0, was_ever_interested := true },
          db := none, log := [] } .go_to_sqft).1.applied = true ∧
    (tool_update_fsm
        { flow := { state := .action_sqft, confused_count := 0, was_ever_interested := true },
          db := none, log := [] } .go_to_sqft).1.reason = none ∧
    (tool_update_fsm
        { flow := { state := .action_sqft, confused_count := 0, was_ever_interested := true },
          db := none, log := [] } .go_to_sqft).2.flow.state = .follow_up := by
  decide

/-- C2 as amended: whenever the coerced form of the requested trigger is
outside the allowed-trigger set of the current state, tool_update_fsm
returns applied false with reason invalid_trigger_for_state and the flow
state is unchanged afterwards; a requested trigger outside the allowed
set whose coercion lands inside it is applied instead. -/
theorem update_fsm_rejects_when_coerced_not_allowed (sys : Sys) (t : Trigger)
    (h : (coerce_event sys.flow.state t).1 ∉ allowed_of sys.flow.state) :
    (tool_update_fsm sys t).1.applied = false ∧
    (tool_update_fsm sys t).1.reason = some "invalid_trigger_for_state" ∧
    (tool_update_fsm sys t).1.state_after = sys.flow.state ∧
    (tool_update_fsm sys t).2.flow.state = sys.flow.state := by
  obtain ⟨h1, h2, _, _, h5, h6, _⟩ := tool_update_reject sys t h
  exact ⟨h1, h2, h5, h6⟩

theorem update_fsm_rejects_when_coerced_not_allowed_witness :
    (coerce_event ({ flow := initialFlow, db := none, log := [] } : Sys).flow.state
        .complete_flow).1 ∉
      allowed_of ({ flow := initialFlow, db := none, log := [] } : Sys).flow.state ∧
    (tool_update_fsm { flow := initialFlow, db := none, log := [] }
        .complete_flow).1.applied = false ∧
    (tool_update_fsm { flow := initialFlow, db := none, log := [] }
        .complete_flow).1.reason = some "invalid_trigger_for_state" ∧
    (tool_update_fsm { flow := initialFlow, db := none, log := [] }
        .complete_flow).1.state_after =
      ({ flow := initialFlow, db := none, log := [] } : Sys).flow.state ∧
    (tool_update_fsm { flow := initialFlow, db := none, log := [] }
        .complete_flow).2.flow.state =
      ({ flow := initialFlow, db := none, log := [] } : Sys).flow.state :=
  ⟨by decide,
   update_fsm_rejects_when_coerced_not_allowed
     { flow := initialFlow, db := none, log := [] } .complete_flow (by decide)⟩

/-- C3 counterexample: with the persisted row at pause and the in-memory
flow at start, get_current_state returns start and overwrites the
persisted row with start — the in-memory state wins on divergence, not
the persisted one as the claim states. -/
theorem get_current_state_memory_wins_cex :
    (get_current_state
        { flow := initialFlow,
          db := some { statename := .pause, was_interested := false },
          log := [] }).1 = .start ∧
    (get_current_state
        { flow := initialFlow,
          db := some { statename := .pause, was_interested := false },
          log := [] }).2.db =
      some { statename := .start, was_interested := false } ∧
    FState.start ≠ FState.pause := by
  decide

/-- C3 as amended: on every read, get_current_state returns the
in-memory flow state and rewrites the persisted row to it (the
in-memory state wins on divergence), while the was_ever_interested flag
is merged upward on both sides: a persisted true always propagates into
memory and neither side is ever downgraded. -/
theorem get_current_state_reconciliation (sys : Sys) :
    (get_current_state sys).1 = sys.flow.state ∧
    (get_current_state sys).2.flow.state = sys.flow.state ∧
    (get_current_state sys).2.db =
      some { statename := sys.flow.state,
             was_interested := dbWi sys || sys.flow.was_ever_interested } ∧
    (get_current_state sys).2.flow.was_ever_interested =
      (sys.flow.was_ever_interested || dbWi sys) :=
  ⟨gcs_fst sys, gcs_state sys, gcs_db sys, gcs_wei sys⟩

/-- C4 counterexample: in state pause, tool_update_fsm with requested
trigger receive_positive_response applies the transition (the trigger is
registered from pause in the transition table), moving the flow to
interested — it is not rejected with invalid_trigger_for_state and the
state does not remain pause. -/
theorem pause_positive_response_applies_cex :
    (tool_update_fsm
        { flow := { state := .pause, confused_count := 3, was_ever_interested := false },
          db := some { statename := .pause, was_interested := false }, log := [] }
        .receive_positive_response).1.applied = true ∧
    (tool_update_fsm
        { flow := { state := .pause, confused_count := 3, was_ever_interested := false },
          db := some { statename := .pause, was_interested := false }, log := [] }
        .receive_positive_response).1.reason = none ∧
    (tool_update_fsm
        { flow := { state := .pause, confused_count := 3, was_ever_interested := false },
          db := some { statename := .pause, was_interested := false }, log := [] }
        .receive_positive_response).1.state_after = .interested ∧
    (tool_update_fsm
        { flow := { state := .pause, confused_count := 3, was_ever_interested := false },
          db := some { statename := .pause, was_interested := false }, log := [] }
        .receive_positive_response).2.flow.state = .interested := by
  decide

lemma tool_update_pause_rpr (sys : Sys) (h : sys.flow.state = .pause) :
    (tool_update_fsm sys .receive_positive_response).1.applied = true ∧
    (tool_update_fsm sys .receive_positive_response).2.flow.state = .interested := by
  rcases sys with ⟨⟨s, c, w⟩, db, log⟩
  cases h
  rcases db with _ | ⟨rs, rw⟩
  · cases w <;> exact ⟨rfl, rfl⟩
  · cases w <;> cases rw <;> exact ⟨rfl, rfl⟩

/-- C4 as amended: in state pause every requested trigger other than
user_stopped is tagged with coercion reason noop_if_invalid_in_pause and
passed through unchanged; the update is then rejected with applied false
and reason invalid_trigger_for_state, state remaining pause, exactly for
the triggers with no registered transition out of pause — but triggers
registered from pause still apply, and receive_positive_response in
particular yields applied true with the flow moving to interested. -/
theorem pause_update_behavior (sys : Sys) (t : Trigger)
    (h : sys.flow.state = .pause) :
    (t ≠ .user_stopped →
      (coerce_event sys.flow.state t).2 = some "noop_if_invalid_in_pause") ∧
    (t ∉ allowed_of .pause →
      (tool_update_fsm sys t).1.applied = false ∧
      (tool_update_fsm sys t).1.reason = some "invalid_trigger_for_state" ∧
      (tool_update_fsm sys t).1.coercion = some "noop_if_invalid_in_pause" ∧
      (tool_update_fsm sys t).2.flow.state = .pause) ∧
    ((tool_update_fsm sys .receive_positive_response).1.applied = true ∧
     (tool_update_fsm sys .receive_positive_response).2.flow.state = .interested) := by
  refine ⟨?_, ?_, tool_update_pause_rpr sys h⟩
  · rw [h]
    cases t <;> decide
  · intro hmem
    have hne : t ≠ .user_stopped := by
      rintro rfl
      exact hmem (by decide)
    have h1 : (coerce_event .pause t).1 = t := by
      revert hne
      cases t <;> decide
    have h2 : (coerce_event .pause t).2 = some "noop_if_invalid_in_pause" := by
      revert hne
      cases t <;> decide
    have hco : (coerce_event sys.flow.state t).1 ∉ allowed_of sys.flow.state := by
      rw [h, h1]
      exact hmem
    obtain ⟨a1, a2, a3, _, _, a6, _⟩ := tool_update_reject sys t hco
    refine ⟨a1, a2, ?_, ?_⟩
    · rw [a3, h, h2]
    · rw [a6, h]

theorem pause_update_behavior_witness :
    (coerce_event
        ({ flow := { state := .pause, confused_count := 3, was_ever_interested := false },
           db := none, log := [] } : Sys).flow.state .complete_flow).2 =
      some "noop_if_invalid_in_pause" ∧
    ((tool_update_fsm
        { flow := { state := .pause, confused_count := 3, was_ever_interested := false },
          db := none, log := [] } .complete_flow).1.applied = false ∧
     (tool_update_fsm
        { flow := { state := .pause, confused_count := 3, was_ever_interested := false },
          db := none, log := [] } .complete_flow).1.reason =
       some "invalid_trigger_for_state" ∧
     (tool_update_fsm
        { flow := { state := .pause, confused_count := 3, was_ever_interested := false },
          db := none, log := [] } .complete_flow).1.coercion =
       some "noop_if_invalid_in_pause" ∧
     (tool_update_fsm
        { flow := { state := .pause, confused_count := 3, was_ever_interested := false },
          db := none, log := [] } .complete_flow).2.flow.state = .pause) ∧
    ((tool_update_fsm
        { flow := { state := .pause, confused_count := 3, was_ever_interested := false },
          db := none, log := [] } .receive_positive_response).1.applied = true ∧
     (tool_update_fsm
        { flow := { state := .pause, confused_count := 3, was_ever_interested := false },
          db := none, log := [] } .receive_positive_response).2.flow.state = .interested) :=
  ⟨(pause_update_behavior
      { flow := { state := .pause, confused_count := 3, was_ever_interested := false },
        db := none, log := [] } .complete_flow rfl).1 (by decide),
   (pause_update_behavior
      { flow := { state := .pause, confused_count := 3, was_ever_interested := false },
        db := none, log := [] } .complete_flow rfl).2.1 (by decide),
   (pause_update_behavior
      { flow := { state := .pause, confused_count := 3, was_ever_interested := false },
        db := none, log := [] } .complete_flow rfl).2.2⟩

/-- C7 counterexample: the pair (pause, go_to_sqft) matches none of the
three rules the claim lists, yet the coercer does not return a null
reason for it — it returns the noop_if_invalid_in_pause tag. -/
theorem coerce_event_pause_reason_cex :
    coerce_event .pause .go_to_sqft =
      (.go_to_sqft, some "noop_if_invalid_in_pause") ∧
    some "noop_if_invalid_in_pause" ≠ (none : Option String) := by
  decide

/-- C7 as amended: the coercer is the deterministic pure function given
by the five rules of the source — the three listed equations, the two
further follow_up acknowledgement remappings, and the pause tagging rule
for every trigger other than user_stopped — and it returns (t, none) on
every pair matched by none of those rules. -/
theorem coerce_event_characterization :
    coerce_event .follow_up .retry_confused =
      (.polite_ack, some "coerced_from_follow_up_ack") ∧
    coerce_event .follow_up .receive_positive_response =
      (.polite_ack, some "coerced_from_follow_up_ack") ∧
    coerce_event .follow_up .resume_flow =
      (.polite_ack, some "coerced_from_follow_up_ack") ∧
    coerce_event .action_sqft .go_to_sqft =
      (.receive_followup, some "coerced_from_gotosqft") ∧
    coerce_event .interested .go_to_sqft =
      (.receive_followup, some "coerced_from_gotosqft_and_interested") ∧
    (∀ t : Trigger, t ≠ .user_stopped →
      coerce_event .pause t = (t, some "noop_if_invalid_in_pause")) ∧
    coerce_event .pause .user_stopped = (.user_stopped, none) ∧
    (∀ (s : FState) (t : Trigger),
      ¬ (s = .follow_up ∧
          (t = .retry_confused ∨ t = .receive_positive_response ∨
            t = .resume_flow)) →
      ¬ (s = .action_sqft ∧ t = .go_to_sqft) →
      ¬ (s = .interested ∧ t = .go_to_sqft) →
      s ≠ .pause →
      coerce_event s t = (t, none)) := by
  refine ⟨rfl, rfl, rfl, rfl, rfl, ?_, rfl, ?_⟩
  · intro t
    cases t <;> decide
  · intro s t
    cases s <;> cases t <;> decide

theorem coerce_event_characterization_witness :
    coerce_event .pause .go_to_sqft =
      (.go_to_sqft, some "noop_if_invalid_in_pause") ∧
    coerce_event .start .complete_flow = (.complete_flow, none) :=
  ⟨coerce_event_characterization.2.2.2.2.2.1 .go_to_sqft (by decide),
   coerce_event_characterization.2.2.2.2.2.2.2 .start .complete_flow
     (by decide) (by decide) (by decide) (by decide)⟩

/-- C8: tool_get_user_context builds allowed_triggers straight from
machine.get_triggers, so the auto-generated to_ triggers leak into the
payload for every state — to_done is reported although it is not one of
the ten explicit triggers; the helper _get_allowed_triggers, which does
filter them out, is bypassed by this tool. -/
theorem get_user_context_exposes_auto_triggers :
    "to_done" ∈
      (tool_get_user_context
        { flow := initialFlow, db := none, log := [] }).1.allowed_triggers ∧
    "to_done" ∉ EXPLICIT_TRIGGERS.map triggerName ∧
    (∀ s : FState,
      "to_done" ∈
        (tool_get_user_context
          { flow := { state := s, confused_count := 0, was_ever_interested := false },
            db := none, log := [] }).1.allowed_triggers) := by
  refine ⟨by decide, by decide, ?_⟩
  intro s
  cases s <;> decide

/-- C9 counterexample: computing the allowed-trigger set for a state is
not free of side effects — with a persisted row diverging from memory,
the call rewrites the persisted statename, so the resulting system state
differs from the input. -/
theorem get_allowed_triggers_mutates_db_cex :
    (get_allowed_triggers .start
        { flow := initialFlow,
          db := some { statename := .pause, was_interested := false },
          log := [] }).2 ≠
      { flow := initialFlow,
        db := some { statename := .pause, was_interested := false },
        log := [] } := by
  decide

/-- C9 as amended: the allowed-trigger set _get_allowed_triggers returns
depends only on the queried state and the static transition table — it
is identical across any two system states — and the computation leaves
the flow state, the confused count and the message log untouched; but
the function is not side-effect-free: its debug introspection invokes
get_current_state, which rewrites the persisted row to the in-memory
state and merges the persisted interest flag into memory. -/
theorem get_allowed_triggers_pure_result (s : FState) (sysa sysb : Sys) :
    (get_allowed_triggers s sysa).1 = (get_allowed_triggers s sysb).1 ∧
    (get_allowed_triggers s sysa).2.flow.state = sysa.flow.state ∧
    (get_allowed_triggers s sysa).2.flow.confused_count =
      sysa.flow.confused_count ∧
    (get_allowed_triggers s sysa).2.log = sysa.log ∧
    (get_allowed_triggers s sysa).2.flow.was_ever_interested =
      (sysa.flow.was_ever_interested || dbWi sysa) ∧
    (get_allowed_triggers s sysa).2.db =
      some { statename := sysa.flow.state,
             was_interested := dbWi sysa || sysa.flow.was_ever_interested } :=
  ⟨rfl, gcs_state sysa, gcs_count sysa, gcs_log sysa, gcs_wei sysa, gcs_db sysa⟩
